import Mathlib

/-!
Shallow embedding of the two-tier planning/dispatch pipeline:
a supervisor router that splits a request into per-master tasks
(src/manager/supervisor.py), per-domain masters that plan tool calls and
extract tool inputs (src/manager/base_master.py), the static capability
catalog (src/manager/catalog.py), the module-level dispatch loop
(src/start.py), and the short-term conversation store
(src/short_term_manager.py).

The external LLM ("reasoning oracle") is opaque: each embedded operation
takes the oracle's (parsed) response as an explicit argument, and the
theorems quantify over all possible responses.
-/

/-- JSON-like values, used for oracle payloads that Python stores as
untyped `Any` (e.g. `ToolPlan.extracted_inputs`). -/
inductive JValue where
  | null : JValue
  | bool (b : Bool) : JValue
  | num (n : Int) : JValue
  | str (s : String) : JValue
  | arr (elems : List JValue) : JValue
  | obj (fields : List (String × JValue)) : JValue

/-- Association-list lookup, modelling Python `dict.get`: first binding of
the key wins (the embedded dicts have distinct keys anyway). -/
def dictGet {α : Type} (d : List (String × α)) (k : String) : Option α :=
  (d.find? (fun p => p.1 == k)).map (fun p => p.2)

/-- Python string truthiness: a string is truthy iff non-empty. -/
def pyTruthyStr (s : String) : Bool := s != ""

/-- Python truthiness of an `Optional[str]` argument: `None` and `""` are
both falsy. -/
def pyTruthyOptStr : Option String → Bool
  | none => false
  | some s => pyTruthyStr s

/-- Python `a or b` on strings: `b` when `a` is falsy (empty), else `a`. -/
def pyOrStr (a b : String) : String := if a == "" then b else a

/-- Metadata describing what a tool does and which fields it touches
(src/manager/catalog.py, `ToolSpec`). -/
structure ToolSpec where
  name : String
  module : String
  description : String
  inputs : List String
  outputs : List String
deriving DecidableEq

/-- High level description of a domain master and the tools it can use
(src/manager/catalog.py, `MasterSpec`). -/
structure MasterSpec where
  name : String
  domain : String
  description : String
  intents : List String
  tool_chain : List String
  hitl_triggers : List String
deriving DecidableEq

/-- Static tool catalog (src/manager/catalog.py, `TOOL_SPECS`), keyed by
tool name in the source dict's insertion order. -/
def TOOL_SPECS : List (String × ToolSpec) := [
  ("annual_leave_inquiry",
    { name := "annual_leave_inquiry",
      module := "tool.스케줄.annual_leave_inquiry",
      description := "연차/반차 잔여 및 사용 이력을 조회합니다.",
      inputs := ["input.employee_id", "schedule_domain.leave.leave_type"],
      outputs := ["schedule_domain.leave.leave_balance", "output.messages"] }),
  ("annual_leave_application",
    { name := "annual_leave_application",
      module := "tool.스케줄.annual_leave_application",
      description := "연차/반차 신청서를 생성하거나 상태를 갱신합니다.",
      inputs := ["input.employee_id", "schedule_domain.leave.leave_type",
                 "schedule_domain.leave.start_date", "schedule_domain.leave.end_date"],
      outputs := ["schedule_domain.leave.leave_request_id", "schedule_domain.leave.leave_status"] }),
  ("meeting_room_inquiry",
    { name := "meeting_room_inquiry",
      module := "tool.스케줄.meeting_room_inquiry",
      description := "지정된 시간대에 사용 가능한 회의실 목록을 조회합니다.",
      inputs := ["schedule_domain.meeting_room.start_time", "schedule_domain.meeting_room.end_time",
                 "schedule_domain.meeting_room.participants", "schedule_domain.meeting_room.require_video"],
      outputs := ["schedule_domain.meeting_room.available_rooms"] }),
  ("meeting_room_recommendation",
    { name := "meeting_room_recommendation",
      module := "tool.스케줄.meeting_room_recommendation",
      description := "가용 회의실을 점수화하고 추천 순위를 제공합니다.",
      inputs := ["schedule_domain.meeting_room.available_rooms"],
      outputs := ["schedule_domain.meeting_room.recommended_rooms"] }),
  ("meeting_room_reservation_cancel",
    { name := "meeting_room_reservation_cancel",
      module := "tool.스케줄.meeting_room_reservation_cancel",
      description := "회의실 예약을 생성하거나 취소하고 reservation_id를 관리합니다.",
      inputs := ["schedule_domain.meeting_room.selected_room_id",
                 "schedule_domain.meeting_room.start_time", "schedule_domain.meeting_room.end_time"],
      outputs := ["schedule_domain.meeting_room.reservation_id",
                  "schedule_domain.meeting_room.reservation_status"] }),
  ("schedule_register_cancel",
    { name := "schedule_register_cancel",
      module := "tool.스케줄.schedule_register_cancel",
      description := "사내 캘린더 일정을 등록하거나 취소합니다.",
      inputs := ["schedule_domain.schedule.title", "schedule_domain.schedule.start_time",
                 "schedule_domain.schedule.end_time", "schedule_domain.meeting_room.reservation_id"],
      outputs := ["schedule_domain.schedule.schedule_id", "schedule_domain.schedule.schedule_status"] }),
  ("schedule_inquiry",
    { name := "schedule_inquiry",
      module := "tool.스케줄.schedule_inquiry",
      description := "직원의 특정 기간 일정 목록을 조회합니다.",
      inputs := ["input.employee_id", "schedule_domain.schedule.start_time",
                 "schedule_domain.schedule.end_time"],
      outputs := ["schedule_domain.schedule"] }),
  ("schedule_notification",
    { name := "schedule_notification",
      module := "tool.스케줄.schedule_notification",
      description := "일정/휴가 처리 결과를 알림 메시지로 발송합니다.",
      inputs := ["schedule_domain.schedule.schedule_id", "schedule_domain.leave.leave_request_id"],
      outputs := ["output.messages"] }),
  ("document_auto_creation",
    { name := "document_auto_creation",
      module := "tool.문서.document_auto_creation",
      description := "템플릿 기반으로 문서를 자동 작성합니다.",
      inputs := ["document_domain.template_name", "document_domain.document_content"],
      outputs := ["document_domain.document_content", "document_domain.document_id",
                  "document_domain.document_path"] }),
  ("auto_approval_request",
    { name := "auto_approval_request",
      module := "tool.문서.auto_approval_request",
      description := "결재선 정보를 이용해 결재 요청을 전송합니다.",
      inputs := ["document_domain.document_id", "document_domain.approval_line"],
      outputs := ["document_domain.approval_status"] }),
  ("pdf_conversion",
    { name := "pdf_conversion",
      module := "tool.문서.pdf_conversion",
      description := "생성된 문서를 PDF로 변환합니다.",
      inputs := ["document_domain.document_content"],
      outputs := ["document_domain.document_path"] }),
  ("knowledge_upload_rag",
    { name := "knowledge_upload_rag",
      module := "tool.문서.knowledge_upload_rag",
      description := "문서를 RAG 지식베이스에 업로드하고 컬렉션을 관리합니다.",
      inputs := ["document_domain.document_path", "document_domain.vector_db_collection"],
      outputs := ["document_domain.upload_status", "document_domain.vector_db_collection"] }),
  ("manual_search_rag",
    { name := "manual_search_rag",
      module := "tool.Q&A.manual_search_rag",
      description := "사내 매뉴얼을 RAG 방식으로 검색합니다.",
      inputs := ["qa_domain.search_query", "qa_domain.search_type"],
      outputs := ["qa_domain.rag_results"] }),
  ("welfare_inquiry",
    { name := "welfare_inquiry",
      module := "tool.Q&A.welfare_inquiry",
      description := "복리후생 정보를 조회합니다.",
      inputs := ["qa_domain.benefit_category"],
      outputs := ["qa_domain.benefit_info"] }),
  ("menu_inquiry",
    { name := "menu_inquiry",
      module := "tool.Q&A.menu_inquiry",
      description := "사내 식단표를 조회합니다.",
      inputs := ["qa_domain.menu_date", "qa_domain.menu_corner"],
      outputs := ["qa_domain.menu"] }),
  ("menu_recommendation",
    { name := "menu_recommendation",
      module := "tool.Q&A.menu_recommendation",
      description := "개인 맞춤 식단을 추천합니다.",
      inputs := ["qa_domain.menu_preferences"],
      outputs := ["qa_domain.menu_recommendation"] }),
  ("email_search",
    { name := "email_search",
      module := "tool.이메일.email_search",
      description := "메일함에서 조건에 맞는 이메일을 검색합니다.",
      inputs := ["email_domain.search_query", "email_domain.email_importance"],
      outputs := ["email_domain.email_search_results"] }),
  ("reply_draft_generation",
    { name := "reply_draft_generation",
      module := "tool.이메일.reply_draft_generation",
      description := "이메일 회신 초안을 생성합니다.",
      inputs := ["input.query"],
      outputs := ["email_domain.email_draft", "email_domain.email_subject"] }),
  ("auto_sending",
    { name := "auto_sending",
      module := "tool.이메일.auto_sending",
      description := "작성된 이메일을 자동으로 발송합니다.",
      inputs := ["email_domain.email_draft", "email_domain.email_to", "email_domain.email_cc"],
      outputs := ["email_domain.email_sent"] }),
  ("email_receipt_detection",
    { name := "email_receipt_detection",
      module := "tool.이메일.email_receipt_detection",
      description := "발송된 이메일의 수신 여부를 추적합니다.",
      inputs := ["email_domain.email_id"],
      outputs := ["email_domain.email_receipt_status"] }),
  ("patent_search",
    { name := "patent_search",
      module := "tool.기술.patent_search",
      description := "특허 검색을 수행합니다.",
      inputs := ["tech_domain.search_keywords"],
      outputs := ["tech_domain.search_results"] }),
  ("patent_vectorization",
    { name := "patent_vectorization",
      module := "tool.기술.patent_vectorization",
      description := "선택한 특허를 벡터화하여 DB에 적재합니다.",
      inputs := ["tech_domain.selected_patent_id", "tech_domain.vector_db_collection"],
      outputs := ["tech_domain.vectorization_status", "tech_domain.vector_db_collection"] }),
  ("paper_search",
    { name := "paper_search",
      module := "tool.기술.paper_search",
      description := "논문/기사 검색을 수행합니다.",
      inputs := ["tech_domain.search_keywords"],
      outputs := ["tech_domain.search_results"] }),
  ("paper_vectorization",
    { name := "paper_vectorization",
      module := "tool.기술.paper_vectorization",
      description := "선택한 논문을 벡터화합니다.",
      inputs := ["tech_domain.selected_article_id"],
      outputs := ["tech_domain.vectorization_status"] })
]

/-- Master spec bound by `ScheduleMaster` (src/manager/catalog.py). -/
def scheduleMasterSpec : MasterSpec :=
  { name := "schedule_master",
    domain := "schedule",
    description := "스케줄/휴가/회의실 관련 복합 작업을 조율합니다.",
    intents := ["leave", "meeting_room", "meeting", "inquiry"],
    tool_chain := ["meeting_room_inquiry", "meeting_room_recommendation",
                   "meeting_room_reservation_cancel", "schedule_register_cancel",
                   "schedule_notification", "annual_leave_inquiry",
                   "annual_leave_application", "schedule_inquiry"],
    hitl_triggers := ["participants 정보 부족", "회의실 조건 미확정", "휴가 승인자 미지정"] }

/-- Master spec bound by `DocumentMaster` (src/manager/catalog.py). -/
def documentMasterSpec : MasterSpec :=
  { name := "document_master",
    domain := "document",
    description := "문서 생성, 결재선 관리, 지식 업로드를 담당합니다.",
    intents := ["generate", "approval", "upload"],
    tool_chain := ["document_auto_creation", "pdf_conversion",
                   "auto_approval_request", "knowledge_upload_rag"],
    hitl_triggers := ["approval_line 누락", "템플릿 변수 부족"] }

/-- Master spec bound by `QAMaster` (src/manager/catalog.py). -/
def qaMasterSpec : MasterSpec :=
  { name := "qa_master",
    domain := "qa",
    description := "사내 매뉴얼, 복지, 식단 질의에 대응합니다.",
    intents := ["manual", "benefit", "menu", "recommend"],
    tool_chain := ["manual_search_rag", "welfare_inquiry", "menu_inquiry",
                   "menu_recommendation"],
    hitl_triggers := ["검색 범위 모호", "메뉴 날짜 미지정"] }

/-- Master spec bound by `EmailMaster` (src/manager/catalog.py). -/
def emailMasterSpec : MasterSpec :=
  { name := "email_master",
    domain := "email",
    description := "이메일 검색, 초안 작성, 발송 및 연동을 담당합니다.",
    intents := ["search", "compose", "notify"],
    tool_chain := ["email_search", "reply_draft_generation", "auto_sending",
                   "email_receipt_detection"],
    hitl_triggers := ["수신자 정보 누락", "민감도 확인 필요"] }

/-- Master spec bound by `TechnologyMaster` (src/manager/catalog.py). -/
def technologyMasterSpec : MasterSpec :=
  { name := "technology_master",
    domain := "tech",
    description := "특허/논문 검색과 벡터화를 조율합니다.",
    intents := ["patent", "article", "vectorize"],
    tool_chain := ["patent_search", "patent_vectorization", "paper_search",
                   "paper_vectorization"],
    hitl_triggers := ["검색 키워드 부족", "유료 문서 접근 확인"] }

/-- Static master catalog (src/manager/catalog.py, `MASTER_SPECS`). -/
def MASTER_SPECS : List (String × MasterSpec) := [
  ("schedule_master", scheduleMasterSpec),
  ("document_master", documentMasterSpec),
  ("qa_master", qaMasterSpec),
  ("email_master", emailMasterSpec),
  ("technology_master", technologyMasterSpec)
]

/-- Single master call that the supervisor expects to run
(src/manager/supervisor.py, `PlannedMasterTask`). -/
structure PlannedMasterTask where
  master : String
  intent : String
  reason : String
  sub_query : String
  priority : Int
  expected_tools : List String
deriving DecidableEq

/-- Full scenario output produced by the supervisor
(src/manager/supervisor.py, `SupervisorPlan`). -/
structure SupervisorPlan where
  domain : String
  intent : String
  master_tasks : List PlannedMasterTask
  hitl_required : Bool
  hitl_reason : Option String
deriving DecidableEq

/-- A task object of the oracle's parsed JSON response. `master`, `intent`
and `reason` have no pydantic default (a response missing one fails
validation before `plan` resumes, so such responses are outside this
model); the other fields are optional and defaulted by pydantic. -/
structure RawMasterTask where
  master : String
  intent : String
  reason : String
  sub_query : Option String
  priority : Option Int
  expected_tools : Option (List String)
deriving DecidableEq

/-- Pydantic construction `PlannedMasterTask(**raw)`: missing fields take
the declared defaults (`sub_query=""`, `priority=0`, `expected_tools=[]`). -/
def RawMasterTask.toTask (r : RawMasterTask) : PlannedMasterTask :=
  { master := r.master, intent := r.intent, reason := r.reason,
    sub_query := r.sub_query.getD "", priority := r.priority.getD 0,
    expected_tools := r.expected_tools.getD [] }

/-- The oracle's parsed JSON response for the supervisor call. Every
`SupervisorPlan` field has a pydantic default, so each is optional here;
`hitl_reason` is `Optional[str]`, hence the nested option. -/
structure RawSupervisorPlan where
  domain : Option String
  intent : Option String
  master_tasks : Option (List RawMasterTask)
  hitl_required : Option Bool
  hitl_reason : Option (Option String)
deriving DecidableEq

/-- Pydantic construction `SupervisorPlan(**raw_plan)` with the declared
defaults (`domain="general"`, `intent=""`, `master_tasks=[]`,
`hitl_required=False`, `hitl_reason=None`). -/
def RawSupervisorPlan.toPlan (r : RawSupervisorPlan) : SupervisorPlan :=
  { domain := r.domain.getD "general",
    intent := r.intent.getD "",
    master_tasks := (r.master_tasks.getD []).map RawMasterTask.toTask,
    hitl_required := r.hitl_required.getD false,
    hitl_reason := r.hitl_reason.getD none }

namespace SupervisorRouter

/-- Embedding of `SupervisorRouter._infer_domain_from_tasks`: the domain of
the first task whose master is in the master-spec catalog, else "general". -/
def inferDomainFromTasks (specs : List (String × MasterSpec)) :
    List PlannedMasterTask → String
  | [] => "general"
  | t :: rest =>
    match dictGet specs t.master with
    | some spec => spec.domain
    | none => inferDomainFromTasks specs rest

/-- Embedding of `SupervisorRouter._ensure_sub_queries`: each task's
`sub_query` becomes `task.sub_query or full_query`. -/
def ensureSubQueries (full_query : String) (plan : SupervisorPlan) : SupervisorPlan :=
  { plan with master_tasks :=
      plan.master_tasks.map (fun t => { t with sub_query := pyOrStr t.sub_query full_query }) }

/-- Embedding of `SupervisorRouter.plan` after the oracle round-trip: the
parsed oracle response `raw` is an explicit argument, and the function
performs the post-processing the source applies before returning
(domain-hint override / domain inference, top-level intent defaulting,
sub-query guarantee). The serialized state snapshot only feeds the prompt,
so it does not appear here. -/
def plan (specs : List (String × MasterSpec)) (query : String)
    (domain_hint : Option String) (raw : RawSupervisorPlan) : SupervisorPlan :=
  let p := raw.toPlan
  let p :=
    if pyTruthyOptStr domain_hint then { p with domain := domain_hint.getD "" }
    else if p.domain == "" then { p with domain := inferDomainFromTasks specs p.master_tasks }
    else p
  let p :=
    if p.intent == "" && !p.master_tasks.isEmpty then
      { p with intent :=
          match p.master_tasks with
          | [] => p.intent
          | t :: _ => t.intent }
    else p
  ensureSubQueries query p

end SupervisorRouter

/-- Desired tool execution plan for a single master step
(src/manager/base_master.py, `ToolPlan`). `extracted_inputs` is declared
`Dict[str, Any]` but pydantic does not re-validate attribute assignment,
so `_extract_tool_inputs` can store any JSON value there; it is therefore
a `JValue` here, with `JValue.obj` playing the dict case. -/
structure ToolPlan where
  tool : String
  action : String
  reason : String
  inputs_to_collect : List String
  expected_outputs : List String
  fallback : Option String
  extracted_inputs : JValue

/-- Structured instructions for master execution
(src/manager/base_master.py, `MasterDecision`). -/
structure MasterDecision where
  master : String
  intent : String
  plan : List ToolPlan
  hitl_required : Bool
  hitl_reason : Option String
  final_goal : Option String

/-- A tool-plan object of the oracle's parsed JSON response. `tool`,
`action` and `reason` are required by pydantic; the rest are optional and
defaulted. An `extracted_inputs` value in the response must validate as a
dict, hence the association list. -/
structure RawToolPlan where
  tool : String
  action : String
  reason : String
  inputs_to_collect : Option (List String)
  expected_outputs : Option (List String)
  fallback : Option (Option String)
  extracted_inputs : Option (List (String × JValue))

/-- Pydantic construction `ToolPlan(**raw)` with the declared defaults. -/
def RawToolPlan.toPlan (r : RawToolPlan) : ToolPlan :=
  { tool := r.tool, action := r.action, reason := r.reason,
    inputs_to_collect := r.inputs_to_collect.getD [],
    expected_outputs := r.expected_outputs.getD [],
    fallback := r.fallback.getD none,
    extracted_inputs := JValue.obj (r.extracted_inputs.getD []) }

/-- The oracle's parsed JSON response for a master-planning call. `master`
is required by pydantic; every other `MasterDecision` field is defaulted. -/
structure RawMasterDecision where
  master : String
  intent : Option String
  plan : Option (List RawToolPlan)
  hitl_required : Option Bool
  hitl_reason : Option (Option String)
  final_goal : Option (Option String)

/-- Pydantic construction `MasterDecision(**raw_result)` with the declared
defaults (`intent=""`, `plan=[]`, `hitl_required=False`,
`hitl_reason=None`, `final_goal=None`). -/
def RawMasterDecision.toDecision (r : RawMasterDecision) : MasterDecision :=
  { master := r.master,
    intent := r.intent.getD "",
    plan := (r.plan.getD []).map RawToolPlan.toPlan,
    hitl_required := r.hitl_required.getD false,
    hitl_reason := r.hitl_reason.getD none,
    final_goal := r.final_goal.getD none }

/-- Outcome of one per-step extraction oracle round-trip in
`_extract_tool_inputs`, covering the branches the source distinguishes:
`llm.invoke` raising; a falsy `content` attribute (empty or missing, via
`getattr(response, "content", "")`); non-empty content on which
`json.loads` raises; or non-empty content parsing to the JSON value `v`. -/
inductive ExtractOutcome where
  | raises : ExtractOutcome
  | emptyContent : ExtractOutcome
  | unparsable : ExtractOutcome
  | parsed (v : JValue) : ExtractOutcome

/-- An extraction oracle: the step's prompt is built from the user query
and the step's tool, action and field list, so a deterministic oracle's
reply factors through this function of the query and the step. -/
def ExtractOracle : Type := String → ToolPlan → ExtractOutcome

/-- Required fields of one step before deduplication: the catalog inputs
of the step's tool (when cataloged), then the step's `inputs_to_collect`
(src/manager/base_master.py lines 159-164). -/
def requiredFields (tool_specs : List (String × ToolSpec)) (p : ToolPlan) : List String :=
  (((dictGet tool_specs p.tool).map ToolSpec.inputs).getD []) ++ p.inputs_to_collect

/-- The `unique_fields` loop of `_extract_tool_inputs`: keep each truthy
(non-empty) field the first time it appears. -/
def dedupTruthy (fields : List String) : List String :=
  fields.foldl (fun acc f => if f != "" && !acc.contains f then acc ++ [f] else acc) []

/-- Lookup of a key in a JSON value, when the value is an object. -/
def jLookup (v : JValue) (k : String) : Option JValue :=
  match v with
  | JValue.obj fields => dictGet fields k
  | _ => none

/-- One iteration of the `_extract_tool_inputs` loop for step `p`,
returning the updated step and the number of oracle calls it issued
(0 or 1). Branches mirror the source: an empty `unique_fields` list sets
`extracted_inputs = {}` without calling the oracle; otherwise the oracle
is called once and the `try`/`except` shape applies — an exception from
`llm.invoke` or from `json.loads` maps every unique field to `None`, falsy
content yields `{}`, and any parsed JSON value is stored as-is. -/
def extractStep (tool_specs : List (String × ToolSpec)) (oracle : ExtractOracle)
    (query : String) (p : ToolPlan) : ToolPlan × Nat :=
  let unique_fields := dedupTruthy (requiredFields tool_specs p)
  if unique_fields.isEmpty then
    ({ p with extracted_inputs := JValue.obj [] }, 0)
  else
    match oracle query p with
    | ExtractOutcome.raises =>
      ({ p with extracted_inputs :=
          JValue.obj (unique_fields.map (fun f => (f, JValue.null))) }, 1)
    | ExtractOutcome.emptyContent =>
      ({ p with extracted_inputs := JValue.obj [] }, 1)
    | ExtractOutcome.unparsable =>
      ({ p with extracted_inputs :=
          JValue.obj (unique_fields.map (fun f => (f, JValue.null))) }, 1)
    | ExtractOutcome.parsed v =>
      ({ p with extracted_inputs := v }, 1)

/-- Embedding of `BaseLLMMaster._extract_tool_inputs`: every step of the
decision's plan is processed by `extractStep`; the second component counts
the oracle calls made across the plan. -/
def extractToolInputs (tool_specs : List (String × ToolSpec)) (oracle : ExtractOracle)
    (query : String) (d : MasterDecision) : MasterDecision × Nat :=
  let results := d.plan.map (extractStep tool_specs oracle query)
  ({ d with plan := results.map Prod.fst },
   (results.map Prod.snd).sum)

/-- Embedding of `BaseLLMMaster.plan_tools` after the planning oracle
round-trip: `spec` is the master spec the planner was bound to at
construction (`self.spec`), `raw` the parsed planning response, `oracle`
the extraction oracle consulted by `_extract_tool_inputs`, and `intent`
the caller's `Optional[str]` intent argument. `self.spec.intents[0]` is
embedded as `headD ""`; the source raises `IndexError` on an empty intent
list, and every cataloged master has a non-empty one. -/
def plan_tools (spec : MasterSpec) (tool_specs : List (String × ToolSpec))
    (oracle : ExtractOracle) (query : String) (intent : Option String)
    (raw : RawMasterDecision) : MasterDecision :=
  let result := raw.toDecision
  let result :=
    if pyTruthyOptStr intent then { result with intent := intent.getD "" }
    else if result.intent == "" then { result with intent := spec.intents.headD "" }
    else result
  let result := { result with master := spec.name }
  (extractToolInputs tool_specs oracle query result).1

/-- Keys of `MASTER_CLASS_MAP` in src/start.py: the masters for which a
planner class is registered. -/
def MASTER_CLASS_MAP_KEYS : List String :=
  ["schedule_master", "document_master", "qa_master", "email_master", "technology_master"]

/-- Python `MASTER_CLASS_MAP.get(task.master)` followed by the
`if not master_cls` check: a master is known iff it is a key of the map. -/
def knownMaster (m : String) : Bool := MASTER_CLASS_MAP_KEYS.contains m

/-- Observable event of one iteration of the module-level dispatch loop in
src/start.py: either the task is skipped (unknown master, warning logged,
`continue`) or the matching master's `plan_tools` is invoked with the
task's effective query and intent. -/
inductive DispatchEvent where
  | skip (master : String) : DispatchEvent
  | invoke (master : String) (query : String) (intent : String) : DispatchEvent
deriving DecidableEq

/-- Embedding of the dispatch loop of src/start.py (lines 42-56): iterate
`plan.master_tasks` in list order; an unregistered master yields a skip
event, otherwise the planner is invoked with
`task_query = getattr(task, "sub_query", "") or query` and
`intent=task.intent`. The per-task planner results are only printed and
logged, and each call gets a fresh empty state, so the events capture
everything one iteration feeds forward. -/
def dispatch (query : String) (tasks : List PlannedMasterTask) : List DispatchEvent :=
  tasks.map (fun t =>
    if knownMaster t.master then
      DispatchEvent.invoke t.master (pyOrStr t.sub_query query) t.intent
    else
      DispatchEvent.skip t.master)

/-- One stored conversation entry (src/short_term_manager.py,
`record_interaction`). The timestamp is an explicit argument of the model
since the source reads the wall clock. -/
structure ConversationEntry where
  timestamp : String
  session_id : String
  user_query : String
  intent : String
  tools : List JValue
  hitl_required : Bool
  hitl_reason : Option String

/-- State of the short-term storage file as `_load` distinguishes it: the
file does not exist, its text is not valid JSON (`json.JSONDecodeError`),
or it holds a JSON dict whose "conversations" key is the given list when
present. (A file holding valid JSON that is not a dict of a list of
entries raises `AttributeError` later in `record_interaction` and is
outside this model.) -/
inductive MemoryFileState where
  | missing : MemoryFileState
  | undecodable : MemoryFileState
  | stored (conversations : Option (List ConversationEntry)) : MemoryFileState

/-- Embedding of `ShortTermMemoryManager._load` composed with the
`data.setdefault("conversations", [])` of `record_interaction`: a missing
or undecodable file gives the empty store, and a stored dict without the
key defaults it to the empty list. -/
def loadConversations : MemoryFileState → List ConversationEntry
  | MemoryFileState.missing => []
  | MemoryFileState.undecodable => []
  | MemoryFileState.stored conversations => conversations.getD []

/-- Python list slice `xs[s:]` for an arbitrary integer `s`: a negative
start counts from the end and clamps at 0, a non-negative start clamps at
the length. -/
def pySliceFrom {α : Type} (xs : List α) (s : Int) : List α :=
  if s < 0 then xs.drop (xs.length - (-s).toNat) else xs.drop s.toNat

/-- Embedding of `ShortTermMemoryManager.record_interaction`: append the
new entry to the loaded conversations and, when the list exceeds
`max_conversations`, keep `conversations[-max_conversations:]`; the result
is the conversation list written back by `_save`. -/
def record_interaction (fileState : MemoryFileState) (entry : ConversationEntry)
    (max_conversations : Int) : List ConversationEntry :=
  let conversations := loadConversations fileState ++ [entry]
  if (conversations.length : Int) > max_conversations then
    pySliceFrom conversations (-max_conversations)
  else
    conversations

/-- Extraction oracle whose every call raises (e.g. a transport failure of
`llm.invoke`). -/
def oracleRaises : ExtractOracle := fun _ _ => ExtractOutcome.raises

/-- Extraction oracle whose every call returns a response with falsy
`content` (empty string or missing attribute). -/
def oracleEmptyContent : ExtractOracle := fun _ _ => ExtractOutcome.emptyContent

/-- Routing-plan tasks with priorities 3, 1, 2 — the dispatch-ordering
scenario of the spec's testable properties, with all masters known. -/
def tasksPrio312 : List PlannedMasterTask :=
  [{ master := "schedule_master", intent := "meeting", reason := "r1",
     sub_query := "s1", priority := 3, expected_tools := [] },
   { master := "email_master", intent := "compose", reason := "r2",
     sub_query := "s2", priority := 1, expected_tools := [] },
   { master := "qa_master", intent := "manual", reason := "r3",
     sub_query := "s3", priority := 2, expected_tools := [] }]

/-- An oracle task response for `schedule_master` with the `sub_query`
field missing. -/
def rawTaskNoSubQuery : RawMasterTask :=
  { master := "schedule_master", intent := "meeting", reason := "r",
    sub_query := none, priority := none, expected_tools := none }

/-- An oracle routing response with the `domain` field missing and a
single `schedule_master` task without a `sub_query`. -/
def rawPlanNoDomain : RawSupervisorPlan :=
  { domain := none, intent := none, master_tasks := some [rawTaskNoSubQuery],
    hitl_required := none, hitl_reason := none }

/-- A plan step whose tool is not cataloged and that declares one input to
collect, so its required-field set is exactly ["a"]. -/
def stepFieldA : ToolPlan :=
  { tool := "no_such_tool", action := "act", reason := "r",
    inputs_to_collect := ["a"], expected_outputs := [], fallback := none,
    extracted_inputs := JValue.obj [] }

/-- A plan step whose tool is not cataloged and that declares nothing to
collect, so its required-field set is empty. -/
def stepNoFields : ToolPlan :=
  { tool := "no_such_tool", action := "act", reason := "r",
    inputs_to_collect := [], expected_outputs := [], fallback := none,
    extracted_inputs := JValue.obj [] }

/-- An oracle planning response claiming `hitl_required` with no
`hitl_reason` and claiming a foreign master name. -/
def rawDecisionHitlNoReason : RawMasterDecision :=
  { master := "some_other_master", intent := some "meeting", plan := some [],
    hitl_required := some true, hitl_reason := none, final_goal := none }

/-- A concrete conversation entry for the short-term store. -/
def entry0 : ConversationEntry :=
  { timestamp := "2026-10-12T00:00:00+00:00", session_id := "s",
    user_query := "q", intent := "i", tools := [], hitl_required := false,
    hitl_reason := none }

/-- An oracle routing response whose `domain` field is explicitly the
empty string, with a single cataloged task. -/
def rawPlanEmptyDomain : RawSupervisorPlan :=
  { domain := some "", intent := none, master_tasks := some [rawTaskNoSubQuery],
    hitl_required := none, hitl_reason := none }

/-- An oracle planning response whose HITL fields satisfy the documented
invariant: escalation is flagged and a non-empty reason is given. -/
def rawDecisionWithReason : RawMasterDecision :=
  { master := "schedule_master", intent := some "meeting", plan := some [],
    hitl_required := some true, hitl_reason := some (some "participants 정보 부족"),
    final_goal := none }

/-- A reason value counts as non-empty when it is a non-empty string
(so neither `None` nor `""`). -/
def nonEmptyReason : Option String → Bool
  | none => false
  | some s => s != ""

/-- Characterization of the task list returned by `SupervisorRouter.plan`:
the parsed oracle tasks with the sub-query fallback applied. -/
theorem SupervisorRouter.plan_master_tasks (specs : List (String × MasterSpec))
    (query : String) (hint : Option String) (raw : RawSupervisorPlan) :
    (SupervisorRouter.plan specs query hint raw).master_tasks =
      ((raw.master_tasks.getD []).map RawMasterTask.toTask).map
        (fun t => { t with sub_query := pyOrStr t.sub_query query }) := by
  simp only [SupervisorRouter.plan, ensureSubQueries, RawSupervisorPlan.toPlan]
  split_ifs <;> rfl

/-- Characterization of the domain returned by `SupervisorRouter.plan`:
the hint (when truthy) wins, then inference (only when the parsed domain
is the empty string), else the parsed domain. -/
theorem SupervisorRouter.plan_domain (specs : List (String × MasterSpec))
    (query : String) (hint : Option String) (raw : RawSupervisorPlan) :
    (SupervisorRouter.plan specs query hint raw).domain =
      if pyTruthyOptStr hint then hint.getD ""
      else if raw.domain.getD "general" == "" then
        SupervisorRouter.inferDomainFromTasks specs
          ((raw.master_tasks.getD []).map RawMasterTask.toTask)
      else raw.domain.getD "general" := by
  simp only [SupervisorRouter.plan, ensureSubQueries, RawSupervisorPlan.toPlan]
  split_ifs <;> rfl

/-- Characterization of the intent returned by `plan_tools`: the truthy
caller override wins, then the parsed oracle intent when non-empty, else
the first supported intent of the bound spec. -/
theorem plan_tools_intent (spec : MasterSpec) (tool_specs : List (String × ToolSpec))
    (oracle : ExtractOracle) (query : String) (intent : Option String)
    (raw : RawMasterDecision) :
    (plan_tools spec tool_specs oracle query intent raw).intent =
      if pyTruthyOptStr intent then intent.getD ""
      else if raw.intent.getD "" == "" then spec.intents.headD ""
      else raw.intent.getD "" := by
  simp only [plan_tools, extractToolInputs, RawMasterDecision.toDecision]
  split_ifs <;> rfl

/-- The `hitl_required` flag of a `plan_tools` result is exactly the
parsed oracle value (default `false`). -/
theorem plan_tools_hitl_required (spec : MasterSpec) (tool_specs : List (String × ToolSpec))
    (oracle : ExtractOracle) (query : String) (intent : Option String)
    (raw : RawMasterDecision) :
    (plan_tools spec tool_specs oracle query intent raw).hitl_required =
      raw.hitl_required.getD false := by
  simp only [plan_tools, extractToolInputs, RawMasterDecision.toDecision]
  split_ifs <;> rfl

/-- The `hitl_reason` of a `plan_tools` result is exactly the parsed
oracle value (default `None`). -/
theorem plan_tools_hitl_reason (spec : MasterSpec) (tool_specs : List (String × ToolSpec))
    (oracle : ExtractOracle) (query : String) (intent : Option String)
    (raw : RawMasterDecision) :
    (plan_tools spec tool_specs oracle query intent raw).hitl_reason =
      raw.hitl_reason.getD none := by
  simp only [plan_tools, extractToolInputs, RawMasterDecision.toDecision]
  split_ifs <;> rfl

/-- Fold invariant for the `unique_fields` accumulation loop: a field
already accumulated, or still ahead and truthy, ends up in the result. -/
theorem dedupTruthy_foldl_mem (l : List String) (acc : List String) (f : String)
    (h : f ∈ acc ∨ (f ∈ l ∧ f ≠ "")) :
    f ∈ l.foldl (fun acc f => if f != "" && !acc.contains f then acc ++ [f] else acc) acc := by
  induction l generalizing acc with
  | nil =>
    rcases h with h | ⟨h, _⟩
    · simpa using h
    · simp at h
  | cons a t ih =>
    simp only [List.foldl_cons]
    apply ih
    rcases h with h | ⟨h, hne⟩
    · left
      split_ifs with hc
      · exact List.mem_append_left _ h
      · exact h
    · rcases List.mem_cons.mp h with rfl | hmem
      · left
        split_ifs with hc
        · exact List.mem_append_right _ (List.mem_singleton.mpr rfl)
        · rw [Bool.and_eq_true, not_and_or] at hc
          rcases hc with hc | hc
          · exact absurd (by simpa [bne_iff_ne] using hne) hc
          · rw [Bool.not_eq_true, Bool.not_eq_false'] at hc
            exact List.elem_iff.mp hc
      · exact Or.inr ⟨hmem, hne⟩

/-- Every truthy member of the raw field list appears in `dedupTruthy`. -/
theorem mem_dedupTruthy (fields : List String) (f : String)
    (hf : f ∈ fields) (hne : f ≠ "") : f ∈ dedupTruthy fields :=
  dedupTruthy_foldl_mem fields [] f (Or.inr ⟨hf, hne⟩)

/-- Looking any member of `l` up in the all-null mapping built from `l`
yields the null marker. -/
theorem dictGet_map_null (l : List String) (f : String) (h : f ∈ l) :
    dictGet (l.map (fun g => (g, JValue.null))) f = some JValue.null := by
  induction l with
  | nil => simp at h
  | cons a t ih =>
    rcases List.mem_cons.mp h with rfl | hmem
    · simp [dictGet, List.find?]
    · by_cases ha : a = f
      · subst ha; simp [dictGet, List.find?]
      · simp only [dictGet, List.map_cons, List.find?] at ih ⊢
        rw [show ((a, JValue.null).1 == f) = false by simpa using ha]
        exact ih hmem

/-- C1: the dispatch loop of src/start.py iterates `plan.master_tasks` in
original list order and never consults `priority`: for tasks with
priorities [3, 1, 2] the planners are invoked in exactly that order, not
in the ascending order [1, 2, 3] the spec (and the `priority` field's own
docstring, "lower number means the task should run earlier") requires. -/
theorem dispatch_follows_list_order_not_priority :
    dispatch "q" tasksPrio312 =
      [DispatchEvent.invoke "schedule_master" "s1" "meeting",
       DispatchEvent.invoke "email_master" "s2" "compose",
       DispatchEvent.invoke "qa_master" "s3" "manual"] ∧
    tasksPrio312.map PlannedMasterTask.priority = [3, 1, 2] ∧
    dispatch "q" tasksPrio312 ≠
      [DispatchEvent.invoke "email_master" "s2" "compose",
       DispatchEvent.invoke "qa_master" "s3" "manual",
       DispatchEvent.invoke "schedule_master" "s1" "meeting"] := by
  refine ⟨by decide, by decide, by decide⟩

/-- C9: a routing-plan task whose master has no registered planner class
produces a recorded skip event, and the dispatch of the remaining tasks is
exactly what it would have been without the unknown task — the unknown
master never aborts processing of the other tasks. -/
theorem dispatch_unknown_master_skips (query : String) (t : PlannedMasterTask)
    (rest : List PlannedMasterTask) (h : knownMaster t.master = false) :
    dispatch query (t :: rest) = DispatchEvent.skip t.master :: dispatch query rest := by
  simp [dispatch, h]

/-- Witness for C9 at a concrete unknown master followed by three known
tasks. -/
theorem dispatch_unknown_master_skips_witness :
    knownMaster (PlannedMasterTask.mk "finance_master" "i" "r" "s" 0 []).master = false ∧
    dispatch "q" (PlannedMasterTask.mk "finance_master" "i" "r" "s" 0 [] :: tasksPrio312) =
      DispatchEvent.skip "finance_master" :: dispatch "q" tasksPrio312 :=
  ⟨by decide,
   dispatch_unknown_master_skips "q" (PlannedMasterTask.mk "finance_master" "i" "r" "s" 0 [])
     tasksPrio312 (by decide)⟩

/-- C4: whatever master name the oracle's planning response claims, the
`master` field of every `plan_tools` result is stamped with the bound
spec's name before the result is returned. -/
theorem plan_tools_stamps_bound_master (spec : MasterSpec)
    (tool_specs : List (String × ToolSpec)) (oracle : ExtractOracle)
    (query : String) (intent : Option String) (raw : RawMasterDecision) :
    (plan_tools spec tool_specs oracle query intent raw).master = spec.name := rfl

/-- C8: the intent of a `plan_tools` result follows the precedence — a
truthy caller-supplied intent override wins; otherwise the oracle-provided
intent is kept when non-empty; otherwise the intent is the bound master's
first supported intent. -/
theorem plan_tools_intent_precedence (spec : MasterSpec)
    (tool_specs : List (String × ToolSpec)) (oracle : ExtractOracle)
    (query : String) (raw : RawMasterDecision) (intent : Option String)
    (h : spec.intents ≠ []) :
    (∀ s, intent = some s → s ≠ "" →
      (plan_tools spec tool_specs oracle query intent raw).intent = s) ∧
    (pyTruthyOptStr intent = false → raw.intent.getD "" ≠ "" →
      (plan_tools spec tool_specs oracle query intent raw).intent = raw.intent.getD "") ∧
    (pyTruthyOptStr intent = false → raw.intent.getD "" = "" →
      (plan_tools spec tool_specs oracle query intent raw).intent = spec.intents.head h) := by
  refine ⟨?_, ?_, ?_⟩
  · intro s hs hne
    rw [plan_tools_intent, hs]
    simp [pyTruthyOptStr, pyTruthyStr, hne]
  · intro hfalse hne
    rw [plan_tools_intent, hfalse]
    simp [hne]
  · intro hfalse heq
    rw [plan_tools_intent, hfalse, heq]
    simp [List.head?_eq_head h]

/-- Witness for C8: at a concrete input the non-empty caller override
"ovr" wins over the oracle's claimed intent. -/
theorem plan_tools_intent_precedence_witness :
    scheduleMasterSpec.intents ≠ [] ∧
    (plan_tools scheduleMasterSpec TOOL_SPECS oracleRaises "q" (some "ovr")
      rawDecisionHitlNoReason).intent = "ovr" :=
  ⟨by decide,
   (plan_tools_intent_precedence scheduleMasterSpec TOOL_SPECS oracleRaises "q"
     rawDecisionHitlNoReason (some "ovr") (by decide)).1 "ovr" rfl (by decide)⟩

/-- Counterexample for C7: an oracle response claiming `hitl_required`
with a missing `hitl_reason` passes through `plan_tools` unchanged, so the
pipeline produces a decision with `hitl_required = true` and an empty
(`None`) `hitl_reason`. -/
theorem plan_tools_hitl_unenforced_counterexample :
    (plan_tools scheduleMasterSpec TOOL_SPECS oracleRaises "q" none
      rawDecisionHitlNoReason).hitl_required = true ∧
    (plan_tools scheduleMasterSpec TOOL_SPECS oracleRaises "q" none
      rawDecisionHitlNoReason).hitl_reason = none :=
  ⟨rfl, rfl⟩

/-- C7 (amended): `plan_tools` passes the oracle's parsed HITL fields
through unchanged, so the invariant "`hitl_required` implies a non-empty
`hitl_reason`" holds for a result exactly when the parsed oracle response
already satisfies it; no component of the pipeline enforces it. -/
theorem plan_tools_hitl_passthrough (spec : MasterSpec)
    (tool_specs : List (String × ToolSpec)) (oracle : ExtractOracle)
    (query : String) (intent : Option String) (raw : RawMasterDecision)
    (h : raw.hitl_required.getD false = true →
      nonEmptyReason (raw.hitl_reason.getD none) = true) :
    (plan_tools spec tool_specs oracle query intent raw).hitl_required =
      raw.hitl_required.getD false ∧
    (plan_tools spec tool_specs oracle query intent raw).hitl_reason =
      raw.hitl_reason.getD none ∧
    ((plan_tools spec tool_specs oracle query intent raw).hitl_required = true →
      nonEmptyReason (plan_tools spec tool_specs oracle query intent raw).hitl_reason = true) := by
  refine ⟨plan_tools_hitl_required .., plan_tools_hitl_reason .., ?_⟩
  rw [plan_tools_hitl_required, plan_tools_hitl_reason]
  exact h

/-- Witness for C7's amended theorem at an oracle response that does
satisfy the invariant. -/
theorem plan_tools_hitl_passthrough_witness :
    (rawDecisionWithReason.hitl_required.getD false = true →
      nonEmptyReason (rawDecisionWithReason.hitl_reason.getD none) = true) ∧
    (plan_tools scheduleMasterSpec TOOL_SPECS oracleRaises "q" none
      rawDecisionWithReason).hitl_required = rawDecisionWithReason.hitl_required.getD false ∧
    (plan_tools scheduleMasterSpec TOOL_SPECS oracleRaises "q" none
      rawDecisionWithReason).hitl_reason = rawDecisionWithReason.hitl_reason.getD none ∧
    ((plan_tools scheduleMasterSpec TOOL_SPECS oracleRaises "q" none
      rawDecisionWithReason).hitl_required = true →
      nonEmptyReason (plan_tools scheduleMasterSpec TOOL_SPECS oracleRaises "q" none
        rawDecisionWithReason).hitl_reason = true) :=
  ⟨by decide,
   plan_tools_hitl_passthrough scheduleMasterSpec TOOL_SPECS oracleRaises "q" none
     rawDecisionWithReason (by decide)⟩

/-- C6: for a plan step whose required-field set (the union of the tool's
catalog inputs and the step's `inputs_to_collect`) is empty, the extractor
sets `extracted_inputs` to the empty mapping and issues no oracle call for
that step. -/
theorem extract_no_required_fields_skips_oracle (tool_specs : List (String × ToolSpec))
    (oracle : ExtractOracle) (query : String) (p : ToolPlan)
    (h : requiredFields tool_specs p = []) :
    extractStep tool_specs oracle query p =
      ({ p with extracted_inputs := JValue.obj [] }, 0) := by
  simp [extractStep, h, dedupTruthy]

/-- Witness for C6 at a concrete step with an uncataloged tool and nothing
to collect. -/
theorem extract_no_required_fields_skips_oracle_witness :
    requiredFields TOOL_SPECS stepNoFields = [] ∧
    extractStep TOOL_SPECS oracleRaises "q" stepNoFields =
      ({ stepNoFields with extracted_inputs := JValue.obj [] }, 0) :=
  ⟨rfl, extract_no_required_fields_skips_oracle TOOL_SPECS oracleRaises "q" stepNoFields rfl⟩

/-- Counterexample for C3: when the extraction oracle call succeeds but
returns a response with falsy `content`, the source takes the
`json.loads(content) if content else {}` shortcut, so `extracted_inputs`
becomes the empty mapping and the required field "a" is silently missing
instead of being mapped to the absent marker. -/
theorem extract_empty_content_counterexample :
    (extractStep TOOL_SPECS oracleEmptyContent "q" stepFieldA).1.extracted_inputs =
      JValue.obj [] ∧
    "a" ∈ requiredFields TOOL_SPECS stepFieldA ∧
    jLookup (extractStep TOOL_SPECS oracleEmptyContent "q" stepFieldA).1.extracted_inputs
      "a" = none :=
  ⟨rfl, by decide, rfl⟩

/-- C3 (amended): when the oracle call raises, or its non-empty content
fails JSON decoding, every required field of the step is present in
`extracted_inputs` mapped to the null marker and exactly one oracle call
was made; but a response with empty content yields the empty mapping (all
required keys missing), and content that decodes to a non-mapping JSON
value is stored as returned. -/
theorem extract_failure_maps_fields_to_null (tool_specs : List (String × ToolSpec))
    (oracle : ExtractOracle) (query : String) (p : ToolPlan)
    (hcall : oracle query p = ExtractOutcome.raises ∨
      oracle query p = ExtractOutcome.unparsable)
    (hne : dedupTruthy (requiredFields tool_specs p) ≠ []) :
    (extractStep tool_specs oracle query p).1.extracted_inputs =
      JValue.obj ((dedupTruthy (requiredFields tool_specs p)).map
        (fun f => (f, JValue.null))) ∧
    (extractStep tool_specs oracle query p).2 = 1 ∧
    ∀ f ∈ requiredFields tool_specs p, f ≠ "" →
      jLookup (extractStep tool_specs oracle query p).1.extracted_inputs f =
        some JValue.null := by
  have hempty : (dedupTruthy (requiredFields tool_specs p)).isEmpty = false := by
    cases hd : dedupTruthy (requiredFields tool_specs p) with
    | nil => exact absurd hd hne
    | cons a t => rfl
  have hbase : extractStep tool_specs oracle query p =
      ({ p with extracted_inputs :=
          JValue.obj ((dedupTruthy (requiredFields tool_specs p)).map
            (fun f => (f, JValue.null))) }, 1) := by
    rcases hcall with hc | hc <;> simp [extractStep, hempty, hc]
  refine ⟨by rw [hbase], by rw [hbase], ?_⟩
  intro f hf hfne
  rw [hbase]
  simp only [jLookup]
  exact dictGet_map_null _ f (mem_dedupTruthy _ f hf hfne)

/-- Witness for C3's amended theorem: a raising oracle call on a step
requiring field "a" produces the null marker for "a". -/
theorem extract_failure_maps_fields_to_null_witness :
    (oracleRaises "q" stepFieldA = ExtractOutcome.raises ∨
      oracleRaises "q" stepFieldA = ExtractOutcome.unparsable) ∧
    dedupTruthy (requiredFields TOOL_SPECS stepFieldA) ≠ [] ∧
    jLookup (extractStep TOOL_SPECS oracleRaises "q" stepFieldA).1.extracted_inputs "a" =
      some JValue.null :=
  ⟨Or.inl rfl, by decide,
   (extract_failure_maps_fields_to_null TOOL_SPECS oracleRaises "q" stepFieldA
     (Or.inl rfl) (by decide)).2.2 "a" (by decide) (by decide)⟩

/-- Counterexample for C2: when the original query is itself the empty
string, the `task.sub_query or full_query` fallback substitutes the empty
query, so the returned plan carries a task with an empty `sub_query`. -/
theorem router_sub_query_empty_counterexample :
    ((SupervisorRouter.plan MASTER_SPECS "" none rawPlanNoDomain).master_tasks.map
      PlannedMasterTask.sub_query) = [""] := rfl

/-- C2 (amended): provided the original query is non-empty, every task of
a returned routing plan has a non-empty `sub_query`: a task whose oracle
`sub_query` was empty or missing gets the full original query, any other
task keeps the oracle-provided sub-query; the router never raises for this
condition (`plan` is total in the oracle response). -/
theorem router_sub_query_guarantee (specs : List (String × MasterSpec))
    (query : String) (hint : Option String) (raw : RawSupervisorPlan)
    (hq : query ≠ "") :
    ∀ t ∈ (SupervisorRouter.plan specs query hint raw).master_tasks,
      t.sub_query ≠ "" ∧
      (t.sub_query = query ∨
        ∃ r ∈ raw.master_tasks.getD [], r.sub_query = some t.sub_query) := by
  intro t ht
  rw [SupervisorRouter.plan_master_tasks] at ht
  rcases List.mem_map.mp ht with ⟨t', ht', rfl⟩
  rcases List.mem_map.mp ht' with ⟨r, hr, rfl⟩
  by_cases he : (RawMasterTask.toTask r).sub_query = ""
  · constructor
    · simp [pyOrStr, he, hq]
    · left
      simp [pyOrStr, he]
  · constructor
    · simp [pyOrStr, he]
    · right
      refine ⟨r, hr, ?_⟩
      cases hrs : r.sub_query with
      | none =>
        rw [RawMasterTask.toTask, hrs] at he
        simp at he
      | some s =>
        rw [RawMasterTask.toTask, hrs] at he ⊢
        simp only [Option.getD_some] at he ⊢
        simp [pyOrStr, he]

/-- Witness for C2's amended theorem at a non-empty query and an oracle
task with a missing `sub_query`. -/
theorem router_sub_query_guarantee_witness :
    ("hello" : String) ≠ "" ∧
    ∀ t ∈ (SupervisorRouter.plan MASTER_SPECS "hello" none rawPlanNoDomain).master_tasks,
      t.sub_query ≠ "" ∧
      (t.sub_query = "hello" ∨
        ∃ r ∈ rawPlanNoDomain.master_tasks.getD [], r.sub_query = some t.sub_query) :=
  ⟨by decide,
   router_sub_query_guarantee MASTER_SPECS "hello" none rawPlanNoDomain (by decide)⟩

/-- Counterexample for C5: an oracle response with the `domain` field
missing takes the pydantic default "general" (a truthy string), so
`_infer_domain_from_tasks` is never consulted even though the first task's
master is cataloged: the claim promises inference to "schedule" but the
code returns "general". -/
theorem router_missing_domain_counterexample :
    rawPlanNoDomain.domain = none ∧
    (SupervisorRouter.plan MASTER_SPECS "q" none rawPlanNoDomain).domain = "general" ∧
    SupervisorRouter.inferDomainFromTasks MASTER_SPECS
      ((rawPlanNoDomain.master_tasks.getD []).map RawMasterTask.toTask) = "schedule" ∧
    ¬ (SupervisorRouter.plan MASTER_SPECS "q" none rawPlanNoDomain).domain =
      SupervisorRouter.inferDomainFromTasks MASTER_SPECS
        ((rawPlanNoDomain.master_tasks.getD []).map RawMasterTask.toTask) :=
  ⟨rfl, rfl, rfl, by decide⟩

/-- C5 (amended): a supplied truthy `domain_hint` overrides the returned
domain; otherwise, only when the oracle response carries an explicitly
empty `domain` string is the domain inferred from the first task whose
master name matches a cataloged master spec (with "general" as the
fallback when no task matches); a response missing the `domain` field
defaults to "general" without inference, and any other non-empty response
domain is kept. -/
theorem router_domain_resolution (specs : List (String × MasterSpec))
    (query : String) (hint : Option String) (raw : RawSupervisorPlan) :
    (pyTruthyOptStr hint = true →
      (SupervisorRouter.plan specs query hint raw).domain = hint.getD "") ∧
    (pyTruthyOptStr hint = false → raw.domain = some "" →
      (SupervisorRouter.plan specs query hint raw).domain =
        SupervisorRouter.inferDomainFromTasks specs
          ((raw.master_tasks.getD []).map RawMasterTask.toTask)) ∧
    (pyTruthyOptStr hint = false → raw.domain = none →
      (SupervisorRouter.plan specs query hint raw).domain = "general") ∧
    (pyTruthyOptStr hint = false → ∀ d, raw.domain = some d → d ≠ "" →
      (SupervisorRouter.plan specs query hint raw).domain = d) ∧
    SupervisorRouter.inferDomainFromTasks specs [] = "general" := by
  refine ⟨?_, ?_, ?_, ?_, rfl⟩
  · intro htrue
    rw [SupervisorRouter.plan_domain, htrue]
    rfl
  · intro hfalse hdom
    rw [SupervisorRouter.plan_domain, hfalse, hdom]
    simp
  · intro hfalse hdom
    rw [SupervisorRouter.plan_domain, hfalse, hdom]
    simp
  · intro hfalse d hdom hne
    rw [SupervisorRouter.plan_domain, hfalse, hdom]
    simp [hne]

/-- Witness for C5's amended theorem: with no hint and an explicitly empty
response domain, the result is inferred from the cataloged first task. -/
theorem router_domain_resolution_witness :
    pyTruthyOptStr none = false ∧
    rawPlanEmptyDomain.domain = some "" ∧
    (SupervisorRouter.plan MASTER_SPECS "q" none rawPlanEmptyDomain).domain =
      SupervisorRouter.inferDomainFromTasks MASTER_SPECS
        ((rawPlanEmptyDomain.master_tasks.getD []).map RawMasterTask.toTask) :=
  ⟨rfl, rfl,
   (router_domain_resolution MASTER_SPECS "q" none rawPlanEmptyDomain).2.1 rfl rfl⟩

/-- Counterexample for C10: with `max_conversations = 0` the trimming
slice `conversations[-0:]` is the whole list, so after recording one
interaction on an empty store the conversation list has 1 entry — more
than the bound. -/
theorem record_interaction_zero_bound_counterexample :
    (record_interaction MemoryFileState.missing entry0 0).length = 1 ∧
    ¬ (((record_interaction MemoryFileState.missing entry0 0).length : Int) ≤ 0) :=
  ⟨rfl, by decide⟩

/-- C10 (amended): provided `max_conversations` is at least 1, after every
`record_interaction` the stored conversation list is exactly the most
recent entries of the loaded list with the new entry appended — at most
`max_conversations` of them, oldest dropped first — and a missing or
JSON-undecodable storage file loads as the empty store rather than
raising. -/
theorem record_interaction_keeps_most_recent (fs : MemoryFileState)
    (e : ConversationEntry) (max_conversations : Int)
    (h : 1 ≤ max_conversations) :
    record_interaction fs e max_conversations =
      (loadConversations fs ++ [e]).drop
        ((loadConversations fs ++ [e]).length - max_conversations.toNat) ∧
    ((record_interaction fs e max_conversations).length : Int) ≤ max_conversations ∧
    loadConversations MemoryFileState.missing = [] ∧
    loadConversations MemoryFileState.undecodable = [] := by
  have hrec : record_interaction fs e max_conversations =
      (loadConversations fs ++ [e]).drop
        ((loadConversations fs ++ [e]).length - max_conversations.toNat) := by
    simp only [record_interaction, pySliceFrom]
    split_ifs with hgt hneg
    · rw [neg_neg]
    · exact absurd (by omega : (-max_conversations : Int) < 0) hneg
    · have h0 : (loadConversations fs ++ [e]).length - max_conversations.toNat = 0 := by
        omega
      rw [h0, List.drop_zero]
  refine ⟨hrec, ?_, rfl, rfl⟩
  rw [hrec, List.length_drop]
  omega

/-- Witness for C10's amended theorem: recording on a three-entry store
with bound 2 retains exactly the two most recent entries. -/
theorem record_interaction_keeps_most_recent_witness :
    (1 : Int) ≤ 2 ∧
    (record_interaction (MemoryFileState.stored (some [entry0, entry0, entry0])) entry0 2 =
      (loadConversations (MemoryFileState.stored (some [entry0, entry0, entry0])) ++ [entry0]).drop
        ((loadConversations (MemoryFileState.stored (some [entry0, entry0, entry0])) ++
          [entry0]).length - (2 : Int).toNat) ∧
    ((record_interaction (MemoryFileState.stored (some [entry0, entry0, entry0]))
      entry0 2).length : Int) ≤ 2 ∧
    loadConversations MemoryFileState.missing = [] ∧
    loadConversations MemoryFileState.undecodable = []) :=
  ⟨by decide,
   record_interaction_keeps_most_recent (MemoryFileState.stored (some [entry0, entry0, entry0]))
     entry0 2 (by decide)⟩
